import Mathlib

/-!
Verification of the build orchestrator of faster-FastText (`setup.py`).

The development shallowly embeds the conditional logic of `setup.py`:
the `--coverage` argument handling (lines 48-54), the native-source
discovery (lines 56-61), the extension construction (lines 63-84), the
capability probe `has_flag` (lines 89-100), `cpp_flag` (lines 103-115)
and the flag resolution `BuildExt.build_extensions` (lines 118-165).

Python mutable state is made explicit: `sys.argv` is a `List String`
argument, the class-level dict `BuildExt.c_opts` and the environment
variable `MACOSX_DEPLOYMENT_TARGET` live in a `BuildSt` record threaded
through `build_extensions`, and the fatal `RuntimeError` paths are an
`Except ErrorKind` result.  The subprocess compiler behind `has_flag`
is a stub function `List String → CompileOutcome`; inside
`build_extensions` the probe appears as a stub prober
`List String → Bool`, matching the spec's stub-prober framing (a probe
that answers `true`/`false` without raising).
-/

namespace FasterFastText

/-- `__version__ = '0.8.22'` (setup.py line 23). -/
def fasttext_version : String := "0.8.22"

/-- `FASTTEXT_SRC = "src"` (setup.py line 24). -/
def FASTTEXT_SRC : String := "src"

/-! ## `--coverage` argument handling (setup.py lines 48-54) -/

/-- Python `list.index`: index of the first occurrence, `none` when the
element is absent (where Python raises `ValueError`). -/
def findIndex (a : String) : List String → Option Nat
  | [] => none
  | x :: xs => if x = a then some 0 else (findIndex a xs).map (· + 1)

/-- Lines 48-54: look up `'--coverage'` in `sys.argv`; when present,
delete that single position (`del sys.argv[coverage_index]`) and set
`coverage = True`; when absent (`ValueError`), `coverage = False` and
the argument list is untouched.  Returns `(coverage, new argv)`. -/
def stripCoverage (argv : List String) : Bool × List String :=
  match findIndex "--coverage" argv with
  | none => (false, argv)
  | some i => (true, argv.eraseIdx i)

/-! ## Native-source discovery (setup.py lines 56-61) -/

/-- Python `str.endswith`: the character sequence of `suffix` is a
suffix of the character sequence of `s`. -/
def endswith (s suffix : String) : Bool :=
  List.isSuffixOf suffix.toList s.toList

/-- Lines 56-61: `os.listdir(FASTTEXT_SRC)` (the `listing` argument),
filtered to names ending in `'.cc'`, each joined under `FASTTEXT_SRC`.
Order is directory-listing order; there is no emptiness check. -/
def fasttext_src_cc (listing : List String) : List String :=
  (listing.filter (fun x => endswith x ".cc")).map
    (fun x => FASTTEXT_SRC ++ "/" ++ x)

/-! ## Extension construction (setup.py lines 63-84) -/

/-- Lines 63-65: the trailing `extra_compile_args` string constant. -/
def extra_compile_args_str : String :=
  " -march=native -ffast-math -Wsuggest-final-methods" ++
  " -Walloc-zero -Wsuggest-override -Wodr -flto -ftree-loop-linear" ++
  " -floop-strip-mine -floop-block "

/-- Line 82 (else branch): the release-mode construction-time
compile-argument string. -/
def release_args_str : String :=
  "-O3 -funroll-loops -pthread -march=native" ++ extra_compile_args_str

/-- Line 81 (if branch): the coverage-mode construction-time
compile-argument string. -/
def coverage_args_str : String :=
  "-O0 -fno-inline -fprofile-arcs -pthread -march=native" ++ extra_compile_args_str

/-- A `setuptools.Extension` restricted to the fields the build logic
touches: name, ordered sources, language, compile and link flags. -/
structure Extension where
  name : String
  sources : List String
  language : String
  extra_compile_args : List String
  extra_link_args : List String
deriving DecidableEq, Repr

/-- Line 71: the single designated binding-entry source file. -/
def binding_entry : String := "python/fastText/pybind/fasttext_pybind.cc"

/-- Lines 70-72: the ordered source list of the one declared extension:
the binding entry first, then the discovered `.cc` files. -/
def ext_sources (listing : List String) : List String :=
  binding_entry :: fasttext_src_cc listing

/-- Lines 67-84: `ext_modules`, a single `Extension`.  Its
construction-time `extra_compile_args` is a one-element list holding the
mode-selected string concatenated with `extra_compile_args_str`. -/
def ext_modules (coverage : Bool) (listing : List String) : List Extension :=
  [{ name := "fasttext_pybind",
     sources := ext_sources listing,
     language := "c++",
     extra_compile_args := [if coverage then coverage_args_str else release_args_str],
     extra_link_args := [] }]

/-! ## Capability probe `has_flag` (setup.py lines 89-100) -/

/-- Outcome of one stub trial compilation: the compiler either accepts
the translation unit with the candidate flags, or raises
`CompileError`. -/
inductive CompileOutcome where
  | success
  | compileError
deriving DecidableEq, Repr

/-- The failure surface of the build logic (spec section 7):
`environmentError` for the I/O-level failure to create the scratch
translation unit, `toolchainUnsupported` for the fatal macOS
standard-library `RuntimeError` of lines 135-138. -/
inductive ErrorKind where
  | environmentError
  | toolchainUnsupported
deriving DecidableEq, Repr

/-- Lines 89-100.  `tmpFileOk` tells whether `tempfile.NamedTemporaryFile`
could create the scratch file (an I/O failure there propagates — modelled
as `Except.error environmentError`); `compile` is the stub compiler.  A
`CompileError` from `compiler.compile` is caught and turned into
`Except.ok false`; an accepted compilation gives `Except.ok true`. -/
def has_flag (tmpFileOk : Bool) (compile : List String → CompileOutcome)
    (flags : List String) : Except ErrorKind Bool :=
  if tmpFileOk then
    match compile flags with
    | CompileOutcome.compileError => Except.ok false
    | CompileOutcome.success => Except.ok true
  else
    Except.error ErrorKind.environmentError

/-- Lines 103-115: `cpp_flag` returns `'-std=c++14'` unconditionally
(the probing loop after the `return` statement is unreachable). -/
def cpp_flag : String := "-std=c++14"

/-! ## Flag resolution `BuildExt.build_extensions` (setup.py lines 118-165) -/

/-- `self.compiler.compiler_type` (line 139): `'unix'`, `'msvc'`, or any
other value (hitting the `c_opts.get(ct, [])` default). -/
inductive CompilerType where
  | unix
  | msvc
  | other
deriving DecidableEq, Repr

/-- The active toolchain: whether `sys.platform == 'darwin'` (line 126),
the detected macOS `major.minor` version from `platform.mac_ver()`
(line 127), and the compiler family (line 139). -/
structure ToolchainProfile where
  isDarwin : Bool
  macMajor : Nat
  macMinor : Nat
  compiler_type : CompilerType
deriving DecidableEq, Repr

/-- The class-level dict `BuildExt.c_opts` (lines 120-123): it has
exactly the keys `'msvc'` and `'unix'` and is mutated in place by
`build_extensions`, so its contents persist across resolutions of one
session (one Python process). -/
structure COpts where
  msvc : List String
  unix : List String
deriving DecidableEq, Repr

/-- Lines 120-123: the initial class-level `c_opts`. -/
def init_c_opts : COpts := { msvc := ["/EHsc"], unix := [] }

/-- The mutable state `build_extensions` touches: the class-level
`c_opts`, the `MACOSX_DEPLOYMENT_TARGET` environment variable (`none`
when unset), and `self.extensions`. -/
structure BuildSt where
  c_opts : COpts
  deployment_target_env : Option String
  extensions : List Extension
deriving DecidableEq, Repr

/-- The session state at the start of `build_extensions`: the pristine
class-level `c_opts`, no deployment-target variable, and the declared
`ext_modules`. -/
def initState (coverage : Bool) (listing : List String) : BuildSt :=
  { c_opts := init_c_opts
    deployment_target_env := none
    extensions := ext_modules coverage listing }

/-- Line 127: `str(float('.'.join(mac_ver.split('.')[:2])))` for a
detected version `major.minor`, in decimal: Python's `repr` of the float
prints the shortest round-tripping decimal, which for a two-component
version drops the trailing zeros of the minor component
(`"10.10" ↦ "10.1"`, `"10.0" ↦ "10.0"`, `"10.13" ↦ "10.13"`). -/
def pyFloatStr (major minor : Nat) : String :=
  let m := String.mk (((toString minor).toList.reverse.dropWhile (fun c => c = '0')).reverse)
  toString major ++ "." ++ (if m = "" then "0" else m)

/-- Line 129: `all_flags[0]`. -/
def stdlib_flag : String := "-stdlib=libc++"

/-- Line 129: `all_flags[1]` — a fixed deployment target of 10.7,
independent of the detected macOS version. -/
def deployment_flag : String := "-mmacosx-version-min=10.7"

/-- Line 129: `all_flags = ['-stdlib=libc++', '-mmacosx-version-min=10.7']`. -/
def all_flags : List String := [stdlib_flag, deployment_flag]

/-- Lines 142-146: the flags unconditionally appended to
`c_opts['unix']` on every resolution. -/
def base_flags : List String :=
  ["-flto", "-march=native", "-ffast-math", "-Wsuggest-final-methods",
   "-Walloc-zero", "-Wsuggest-override", "-Wodr", "-ftree-loop-linear",
   "-floop-strip-mine", "-floop-block"]

/-- Line 154: `'-DVERSION_INFO="%s"' % version`. -/
def version_macro_unix (v : String) : String :=
  "-DVERSION_INFO=\"" ++ v ++ "\""

/-- Lines 159-161: `'/DVERSION_INFO=\\"%s\\"' % version`. -/
def version_macro_msvc (v : String) : String :=
  "/DVERSION_INFO=\\\"" ++ v ++ "\\\""

/-- Lines 125-165, with the Python aliasing made explicit.  `opts`
aliases `c_opts[ct]` (line 140), so for `ct == 'unix'` the
`c_opts['unix'] += base_flags` of line 142 and every later
`opts.append` land in the same list; for `ct == 'msvc'` the base flags
go to the `'unix'` entry while `opts` grows the `'msvc'` entry; for any
other family `opts` is the fresh default list `[]`.  Order of events:
on darwin, set `MACOSX_DEPLOYMENT_TARGET` and probe `-stdlib=libc++`
alone, then (on rejection) the `all_flags` pair, raising on double
rejection (lines 126-138); append `base_flags` to `c_opts['unix']`
(lines 142-146); in coverage mode append `'--coverage'` to `opts` and
to `extra_link_args` (lines 148-151); append the version macro, the
C++14 flag and (when it probes) `-fvisibility=hidden` for unix, or the
MSVC version macro (lines 153-161); finally overwrite every extension's
`extra_compile_args` and `extra_link_args` (lines 162-164). -/
def build_extensions (tc : ToolchainProfile) (prober : List String → Bool)
    (coverage : Bool) (version : String) (st : BuildSt) :
    Except ErrorKind BuildSt :=
  let env := if tc.isDarwin then some (pyFloatStr tc.macMajor tc.macMinor)
             else st.deployment_target_env
  let macStep : Except ErrorKind (List String) :=
    if tc.isDarwin then
      if prober [stdlib_flag] then Except.ok (st.c_opts.unix ++ [stdlib_flag])
      else if prober all_flags then Except.ok (st.c_opts.unix ++ all_flags)
      else Except.error ErrorKind.toolchainUnsupported
    else Except.ok st.c_opts.unix
  match macStep with
  | Except.error e => Except.error e
  | Except.ok unixAfterMac =>
    let unixWithBase := unixAfterMac ++ base_flags
    let covOpts : List String := if coverage then ["--coverage"] else []
    let link : List String := if coverage then ["--coverage"] else []
    match tc.compiler_type with
    | CompilerType.unix =>
      let opts := unixWithBase ++ covOpts ++ [version_macro_unix version, cpp_flag] ++
        (if prober ["-fvisibility=hidden"] then ["-fvisibility=hidden"] else [])
      Except.ok
        { c_opts := { msvc := st.c_opts.msvc, unix := opts }
          deployment_target_env := env
          extensions := st.extensions.map (fun e =>
            { e with extra_compile_args := opts, extra_link_args := link }) }
    | CompilerType.msvc =>
      let opts := st.c_opts.msvc ++ covOpts ++ [version_macro_msvc version]
      Except.ok
        { c_opts := { msvc := opts, unix := unixWithBase }
          deployment_target_env := env
          extensions := st.extensions.map (fun e =>
            { e with extra_compile_args := opts, extra_link_args := link }) }
    | CompilerType.other =>
      let opts := covOpts
      Except.ok
        { c_opts := { msvc := st.c_opts.msvc, unix := unixWithBase }
          deployment_target_env := env
          extensions := st.extensions.map (fun e =>
            { e with extra_compile_args := opts, extra_link_args := link }) }

/-- The compile-flag list of the first (and only) extension of a
successful resolution. -/
def resolvedOpts : Except ErrorKind BuildSt → Option (List String)
  | Except.ok st => st.extensions.head?.map Extension.extra_compile_args
  | Except.error _ => none

/-- The state of a successful resolution. -/
def okState : Except ErrorKind BuildSt → Option BuildSt
  | Except.ok st => some st
  | Except.error _ => none

/-- The compile-flag list of the first extension of a state. -/
def firstExtArgs (st : BuildSt) : List String :=
  (st.extensions.head?.map Extension.extra_compile_args).getD []

/-! ## Concrete toolchains and stub probers used in instances -/

/-- A stub prober accepting every candidate flag set. -/
def all_true_prober : List String → Bool := fun _ => true

/-- A stub prober rejecting every candidate flag set. -/
def all_false_prober : List String → Bool := fun _ => false

/-- A stub prober accepting exactly the paired `all_flags` probe, so the
solo `-stdlib=libc++` probe is rejected. -/
def pair_only_prober : List String → Bool := fun fs => fs == all_flags

/-- A non-macOS Unix-family toolchain. -/
def tc_linux_unix : ToolchainProfile :=
  { isDarwin := false, macMajor := 0, macMinor := 0
    compiler_type := CompilerType.unix }

/-- A non-macOS MSVC-family toolchain. -/
def tc_msvc : ToolchainProfile :=
  { isDarwin := false, macMajor := 0, macMinor := 0
    compiler_type := CompilerType.msvc }

/-- A macOS toolchain whose detected OS version is 10.13. -/
def tc_mac_10_13 : ToolchainProfile :=
  { isDarwin := true, macMajor := 10, macMinor := 13
    compiler_type := CompilerType.unix }

/-! ## Helper lemmas -/

/-- Unfolding `stripCoverage` on a cons cell. -/
lemma stripCoverage_cons (x : String) (xs : List String) :
    stripCoverage (x :: xs) =
      if x = "--coverage" then (true, xs)
      else ((stripCoverage xs).1, x :: (stripCoverage xs).2) := by
  by_cases hx : x = "--coverage"
  · simp [stripCoverage, findIndex, hx]
  · cases hfi : findIndex "--coverage" xs with
    | none => simp [stripCoverage, findIndex, hx, hfi]
    | some i => simp [stripCoverage, findIndex, hx, hfi, List.eraseIdx]

/-- All flag strings `build_extensions` can ever place into a resolved
compile-flag list when resolving from the initial session state. -/
def flag_universe : List String :=
  ["/EHsc", stdlib_flag, deployment_flag] ++ base_flags ++
    ["--coverage", version_macro_unix fasttext_version,
     version_macro_msvc fasttext_version, cpp_flag, "-fvisibility=hidden"]

/-- Characterization of every successful resolution from the initial
session state: on darwin the deployment-target variable holds the
detected `major.minor` value, every resolved compile flag lies in
`flag_universe`, and every extension carries the one resolved
compile-flag list, the resolved link flags, and (in coverage mode) the
`--coverage` compile flag. -/
lemma build_ok_char (tc : ToolchainProfile) (prober : List String → Bool)
    (cov : Bool) (l : List String) (st' : BuildSt)
    (h : build_extensions tc prober cov fasttext_version (initState cov l) =
      Except.ok st') :
    (tc.isDarwin = true →
      st'.deployment_target_env = some (pyFloatStr tc.macMajor tc.macMinor)) ∧
    (∀ f ∈ firstExtArgs st', f ∈ flag_universe) ∧
    ∀ e ∈ st'.extensions,
      e.extra_compile_args = firstExtArgs st' ∧
      e.extra_link_args = (if cov then ["--coverage"] else []) ∧
      (cov = true → "--coverage" ∈ e.extra_compile_args) := by
  obtain ⟨d, maj, minr, ct⟩ := tc
  simp only [build_extensions, initState, ext_modules, init_c_opts] at h
  cases d <;> cases ct <;> cases cov <;>
    by_cases h1 : prober [stdlib_flag] <;>
    by_cases h2 : prober all_flags <;>
    by_cases hv : prober ["-fvisibility=hidden"] <;>
    simp only [h1, h2, hv, if_true, if_false, Bool.false_eq_true,
      ite_true, ite_false] at h <;>
    first
      | (rw [Except.ok.injEq] at h; subst h;
         exact ⟨fun hd => by first | rfl | exact Bool.noConfusion hd,
           by simp only [firstExtArgs, List.map_cons, List.map_nil,
                List.head?_cons, Option.map_some', Option.getD_some]; decide,
           fun e he => by
             simp only [List.map_cons, List.map_nil, List.mem_singleton] at he
             subst he
             exact ⟨rfl, by simp only []; decide, by simp only []; decide⟩⟩)
      | simp at h

/-! ## Claims -/

/-- C6: for every native-source directory listing, the assembled source
list is the binding-entry file first, followed by exactly the files of
the listing whose name ends in `.cc`, joined under the source directory,
in listing order; other suffixes are excluded.  In particular, for
listing `[a.cc, b.cc, readme.txt]` the list is exactly
`[entry.cc, src/a.cc, src/b.cc]`. -/
theorem c6_source_set_assembly (listing : List String) :
    ext_sources listing =
      binding_entry ::
        (listing.filter (fun x => endswith x ".cc")).map
          (fun x => FASTTEXT_SRC ++ "/" ++ x) ∧
    (ext_sources listing).head? = some binding_entry ∧
    ext_sources ["a.cc", "b.cc", "readme.txt"] =
      [binding_entry, "src/a.cc", "src/b.cc"] :=
  ⟨rfl, rfl, by decide⟩

/-- C3 counterexample: on an empty native-source directory the assembly
does NOT fail — `ext_sources` is total, and it produces the list holding
only the binding-entry unit, with the one declared extension carrying
exactly that source list. -/
theorem c3_counterexample :
    ext_sources [] = [binding_entry] ∧
    (ext_modules false []).map Extension.sources = [[binding_entry]] := by
  decide

/-- C3 amended: if the native-source directory exists but contains no
file ending in `.cc`, source-set assembly does not raise
`NoSourcesFound` (no such error path exists in the code); it succeeds
and produces the list containing only the binding-entry unit. -/
theorem c3_amended (listing : List String)
    (h : ∀ x ∈ listing, ¬ endswith x ".cc" = true) :
    ext_sources listing = [binding_entry] := by
  unfold ext_sources fasttext_src_cc
  rw [List.filter_eq_nil_iff.mpr h]
  rfl

/-- Witness for C3 amended at the listing `["readme.txt"]`. -/
theorem c3_amended_witness : ext_sources ["readme.txt"] = [binding_entry] :=
  c3_amended ["readme.txt"] (by decide)

/-- C7: for every stub compiler and flag set, when the scoped temporary
file can be created the probe never raises: a `CompileError` from the
trial compilation is converted into `Except.ok false` and an accepted
compilation gives `Except.ok true`; only the I/O-level failure to
create the temporary translation unit is fatal
(`ErrorKind.environmentError`). -/
theorem c7_probe_never_raises (compile : List String → CompileOutcome)
    (flags : List String) :
    has_flag true compile flags =
      Except.ok (match compile flags with
                 | CompileOutcome.compileError => false
                 | CompileOutcome.success => true) ∧
    has_flag false compile flags = Except.error ErrorKind.environmentError := by
  refine ⟨?_, rfl⟩
  cases h : compile flags <;> simp [has_flag, h]

/-- C9 counterexample: with initial argument list
`["--coverage", "--coverage"]` only the first occurrence is deleted, so
after processing the switch is still present in the argument list,
contradicting the claim that it is no longer present. -/
theorem c9_counterexample :
    stripCoverage ["--coverage", "--coverage"] = (true, ["--coverage"]) ∧
    "--coverage" ∈ (stripCoverage ["--coverage", "--coverage"]).2 := by
  decide

/-- C9 amended: the session-level `--coverage` switch is consumed by
deleting its FIRST occurrence: coverage mode is enabled iff the switch
was present, the processed argument list is the initial list with the
first occurrence removed (all other arguments unchanged in order, i.e.
`List.erase`), and the switch is absent afterwards provided it occurred
at most once in the initial list. -/
theorem c9_amended (argv : List String) :
    ((stripCoverage argv).1 = true ↔ "--coverage" ∈ argv) ∧
    (stripCoverage argv).2 = argv.erase "--coverage" ∧
    (argv.count "--coverage" ≤ 1 → "--coverage" ∉ (stripCoverage argv).2) := by
  have key : ((stripCoverage argv).1 = true ↔ "--coverage" ∈ argv) ∧
      (stripCoverage argv).2 = argv.erase "--coverage" := by
    induction argv with
    | nil => simp [stripCoverage, findIndex]
    | cons x xs ih =>
      rw [stripCoverage_cons]
      by_cases hx : x = "--coverage"
      · subst hx
        simp [List.erase_cons]
      · simp only [if_neg hx, List.erase_cons]
        have hbeq : (x == "--coverage") = false := by
          simpa using hx
        simp [hbeq, ih.1, ih.2, hx, Ne.symm hx]
  refine ⟨key.1, key.2, fun hcount hmem => ?_⟩
  rw [key.2] at hmem
  have hz : argv.count "--coverage" - 1 = 0 := by omega
  have := List.count_erase_self "--coverage" argv
  rw [hz] at this
  exact (List.count_eq_zero.mp this) hmem

/-- Witness for C9 amended at the argument list `["x", "--coverage"]`. -/
theorem c9_amended_witness :
    "--coverage" ∉ (stripCoverage ["x", "--coverage"]).2 :=
  (c9_amended ["x", "--coverage"]).2.2 (by decide)

/-- C1: on a macOS toolchain profile the resolver probes
`-stdlib=libc++` alone first (a solo success suffices, whatever the
pair probe would say); if the solo probe fails and the paired probe
succeeds, both flags of the pair are appended to the flag set
`c_opts['unix']`; and if both probe forms fail, resolution fails
fatally with `ErrorKind.toolchainUnsupported`. -/
theorem c1_mac_probe_policy (prober : List String → Bool) (cov : Bool)
    (l : List String) (maj minr : Nat) (ct : CompilerType) :
    (prober [stdlib_flag] = true →
      ∃ st', build_extensions ⟨true, maj, minr, ct⟩ prober cov fasttext_version
          (initState cov l) = Except.ok st' ∧
        stdlib_flag ∈ st'.c_opts.unix) ∧
    (prober [stdlib_flag] = false → prober all_flags = true →
      ∃ st', build_extensions ⟨true, maj, minr, ct⟩ prober cov fasttext_version
          (initState cov l) = Except.ok st' ∧
        stdlib_flag ∈ st'.c_opts.unix ∧ deployment_flag ∈ st'.c_opts.unix) ∧
    (prober [stdlib_flag] = false → prober all_flags = false →
      build_extensions ⟨true, maj, minr, ct⟩ prober cov fasttext_version
          (initState cov l) = Except.error ErrorKind.toolchainUnsupported) := by
  refine ⟨fun h1 => ?_, fun h1 h2 => ?_, fun h1 h2 => ?_⟩
  · cases ct <;> cases cov <;>
      by_cases hv : prober ["-fvisibility=hidden"] <;>
      simp only [build_extensions, initState, ext_modules, init_c_opts, h1, hv,
        if_true, if_false, Bool.false_eq_true, ite_true, ite_false] <;>
      exact ⟨_, rfl, by simp only []; decide⟩
  · cases ct <;> cases cov <;>
      by_cases hv : prober ["-fvisibility=hidden"] <;>
      simp only [build_extensions, initState, ext_modules, init_c_opts, h1, h2, hv,
        if_true, if_false, Bool.false_eq_true, ite_true, ite_false] <;>
      exact ⟨_, rfl, by simp only []; decide, by simp only []; decide⟩
  · cases ct <;> cases cov <;>
      simp only [build_extensions, initState, ext_modules, init_c_opts, h1, h2,
        if_true, if_false, Bool.false_eq_true, ite_true, ite_false]

/-- Witness for C1 on the detected version 10.13 with a stub prober that
rejects the solo form and accepts the pair. -/
theorem c1_witness :
    ∃ st', build_extensions ⟨true, 10, 13, CompilerType.unix⟩ pair_only_prober
        false fasttext_version (initState false []) = Except.ok st' ∧
      stdlib_flag ∈ st'.c_opts.unix ∧ deployment_flag ∈ st'.c_opts.unix :=
  (c1_mac_probe_policy pair_only_prober false [] 10 13 CompilerType.unix).2.1
    (by decide) (by decide)

/-- C4 counterexample: with a stub prober accepting every candidate, an
MSVC-family resolution from the initial session state yields exactly
`['/EHsc', version macro]` — the base flag `-flto` (and the rest of the
base set) is absent, because line 142 adds the base flags only to
`c_opts['unix']`. -/
theorem c4_counterexample :
    "-flto" ∈ base_flags ∧
    resolvedOpts (build_extensions tc_msvc all_true_prober false fasttext_version
      (initState false [])) =
      some ["/EHsc", version_macro_msvc fasttext_version] ∧
    "-flto" ∉ ["/EHsc", version_macro_msvc fasttext_version] := by
  decide

/-- C4 amended: the monotonic base inclusion holds for the Unix-like
compiler family only: with a prober accepting all candidates, a
Unix-family resolution's compile-flag set contains every base flag;
MSVC-family and unknown-family resolutions never receive the base
flags, which go only to the `'unix'` entry of the flag table. -/
theorem c4_amended (tc : ToolchainProfile) (prober : List String → Bool)
    (cov : Bool) (l : List String) (st' : BuildSt)
    (hp : ∀ fs, prober fs = true)
    (hct : tc.compiler_type = CompilerType.unix)
    (h : build_extensions tc prober cov fasttext_version (initState cov l) =
      Except.ok st') :
    ∀ e ∈ st'.extensions, ∀ f ∈ base_flags, f ∈ e.extra_compile_args := by
  obtain ⟨d, maj, minr, ct⟩ := tc
  simp only at hct
  subst hct
  simp [build_extensions, initState, ext_modules, init_c_opts, hp] at h
  cases d <;> cases cov <;>
    simp only [if_true, if_false, Bool.false_eq_true, ite_true, ite_false] at h <;>
    (rw [Except.ok.injEq] at h; subst h; intro e he;
     simp only [List.map_cons, List.map_nil, List.mem_singleton] at he; subst he;
     intro f hf; simp only []; simp [hf])

/-- Witness for C4 amended on a non-macOS Unix-family profile with the
all-accepting stub prober. -/
theorem c4_amended_witness :
    ∃ st', build_extensions tc_linux_unix all_true_prober false fasttext_version
        (initState false []) = Except.ok st' ∧
      ∀ e ∈ st'.extensions, ∀ f ∈ base_flags, f ∈ e.extra_compile_args :=
  ⟨_, rfl, c4_amended tc_linux_unix all_true_prober false [] _
    (fun _ => rfl) rfl rfl⟩

/-- The release-mode aggressive-optimization flags: the flags appearing
only in the release-mode construction-time argument string of line 82
(`-O3 -funroll-loops`). -/
def release_opt_flags : List String := ["-O3", "-funroll-loops"]

/-- C5: in every successful resolution from the initial session state,
no release-mode aggressive-optimization flag is present in any resolved
compile-flag list (so coverage-instrumentation and release-optimization
flags are never both present), and in coverage mode the resolver puts
the `--coverage` compile flag and the matching link flag on every
extension. -/
theorem c5_coverage_release_exclusion (tc : ToolchainProfile)
    (prober : List String → Bool) (cov : Bool) (l : List String) (st' : BuildSt)
    (h : build_extensions tc prober cov fasttext_version (initState cov l) =
      Except.ok st') :
    (∀ e ∈ st'.extensions, ∀ f ∈ release_opt_flags, f ∉ e.extra_compile_args) ∧
    (cov = true → ∀ e ∈ st'.extensions,
      "--coverage" ∈ e.extra_compile_args ∧ "--coverage" ∈ e.extra_link_args) := by
  obtain ⟨-, huniv, hext⟩ := build_ok_char tc prober cov l st' h
  constructor
  · intro e he f hf hmem
    rw [(hext e he).1] at hmem
    exact absurd (huniv f hmem)
      ((by decide : ∀ g ∈ release_opt_flags, g ∉ flag_universe) f hf)
  · intro hc e he
    subst hc
    refine ⟨(hext e he).2.2 rfl, ?_⟩
    rw [(hext e he).2.1]
    simp

/-- Witness for C5 on a coverage-mode Unix-family session with the
all-accepting stub prober. -/
theorem c5_witness :
    ∃ st', build_extensions tc_linux_unix all_true_prober true fasttext_version
        (initState true []) = Except.ok st' ∧
      ((∀ e ∈ st'.extensions, ∀ f ∈ release_opt_flags,
          f ∉ e.extra_compile_args) ∧
        (true = true → ∀ e ∈ st'.extensions,
          "--coverage" ∈ e.extra_compile_args ∧
          "--coverage" ∈ e.extra_link_args)) :=
  ⟨_, rfl, c5_coverage_release_exclusion tc_linux_unix all_true_prober true [] _ rfl⟩

/-- Python `str.startswith`: the character sequence of `p` begins the
character sequence of `s`. -/
def startswith (s p : String) : Bool :=
  List.isPrefixOf p.toList s.toList

/-- C8 counterexample: on a macOS profile with detected version 10.13
(pair-probe fallback), the published `MACOSX_DEPLOYMENT_TARGET` value is
`"10.13"`, yet the deployment-target flag in the resolved flag set is
the fixed `-mmacosx-version-min=10.7` and the detected-version flag
`-mmacosx-version-min=10.13` is absent: the flag is not derived from the
detected OS version and differs from the published value. -/
theorem c8_counterexample :
    (okState (build_extensions tc_mac_10_13 pair_only_prober false
        fasttext_version (initState false []))).map (fun st =>
      (st.deployment_target_env, (firstExtArgs st).contains deployment_flag,
        (firstExtArgs st).contains "-mmacosx-version-min=10.13")) =
      some (some "10.13", true, false) := by
  decide

/-- C8 amended: on macOS the detected `major.minor` value is the one
published as `MACOSX_DEPLOYMENT_TARGET`, while any deployment-target
flag appearing in the resolved compile-flag set is the fixed
`-mmacosx-version-min=10.7`, independent of the detected version. -/
theorem c8_amended (prober : List String → Bool) (cov : Bool)
    (l : List String) (maj minr : Nat) (ct : CompilerType) (st' : BuildSt)
    (h : build_extensions ⟨true, maj, minr, ct⟩ prober cov fasttext_version
      (initState cov l) = Except.ok st') :
    st'.deployment_target_env = some (pyFloatStr maj minr) ∧
    ∀ e ∈ st'.extensions, ∀ f ∈ e.extra_compile_args,
      startswith f "-mmacosx-version-min=" = true → f = deployment_flag := by
  obtain ⟨henv, huniv, hext⟩ := build_ok_char _ prober cov l st' h
  refine ⟨henv rfl, fun e he f hf hs => ?_⟩
  rw [(hext e he).1] at hf
  exact (by decide : ∀ g ∈ flag_universe,
    startswith g "-mmacosx-version-min=" = true → g = deployment_flag)
    f (huniv f hf) hs

/-- Witness for C8 amended on the detected version 10.13 with the
pair-accepting stub prober. -/
theorem c8_amended_witness :
    ∃ st', build_extensions ⟨true, 10, 13, CompilerType.unix⟩ pair_only_prober
        false fasttext_version (initState false []) = Except.ok st' ∧
      (st'.deployment_target_env = some (pyFloatStr 10 13) ∧
        ∀ e ∈ st'.extensions, ∀ f ∈ e.extra_compile_args,
          startswith f "-mmacosx-version-min=" = true → f = deployment_flag) :=
  ⟨_, rfl, c8_amended pair_only_prober false [] 10 13 CompilerType.unix _ rfl⟩

/-- C10: in every successful resolution from the initial session state,
one resolved list `opts` is handed uniformly to every extension as its
compile-flag list, replacing the construction-time string: neither the
release construction string nor the coverage construction string occurs
in the final list, in any mode. -/
theorem c10_resolved_args_replace_construction (tc : ToolchainProfile)
    (prober : List String → Bool) (cov : Bool) (l : List String) (st' : BuildSt)
    (h : build_extensions tc prober cov fasttext_version (initState cov l) =
      Except.ok st') :
    ∃ optsL, (∀ e ∈ st'.extensions, e.extra_compile_args = optsL) ∧
      release_args_str ∉ optsL ∧ coverage_args_str ∉ optsL := by
  obtain ⟨-, huniv, hext⟩ := build_ok_char tc prober cov l st' h
  refine ⟨firstExtArgs st', fun e he => (hext e he).1, fun hmem => ?_, fun hmem => ?_⟩
  · exact absurd (huniv _ hmem) (by decide)
  · exact absurd (huniv _ hmem) (by decide)

/-- Witness for C10 on a coverage-mode Unix-family session (the mode
whose construction-time string differs from release). -/
theorem c10_witness :
    ∃ st', build_extensions tc_linux_unix all_true_prober true fasttext_version
        (initState true []) = Except.ok st' ∧
      ∃ optsL, (∀ e ∈ st'.extensions, e.extra_compile_args = optsL) ∧
        release_args_str ∉ optsL ∧ coverage_args_str ∉ optsL :=
  ⟨_, rfl, c10_resolved_args_replace_construction tc_linux_unix all_true_prober
    true [] _ rfl⟩

/-- The first resolution of a release-mode Unix-family session with the
all-accepting stub prober. -/
def c2_first_run : Except ErrorKind BuildSt :=
  build_extensions tc_linux_unix all_true_prober false fasttext_version
    (initState false [])

/-- A second resolution of the same `(profile, mode)` pair with the same
stub prober, within the same session (that is, from the state the first
resolution left behind). -/
def c2_second_run : Except ErrorKind BuildSt :=
  match c2_first_run with
  | Except.ok st1 =>
    build_extensions tc_linux_unix all_true_prober false fasttext_version st1
  | Except.error e => Except.error e

/-- C2 counterexample: resolving the same `(ToolchainProfile, BuildMode)`
pair twice within one session with a fixed stub prober does NOT yield
identical compile-flag lists: both resolutions succeed, yet the second
list differs from the first (the class-level flag state is mutated in
place, so the second resolution's list duplicates the accumulated
flags). -/
theorem c2_counterexample :
    resolvedOpts c2_first_run ≠ none ∧
    resolvedOpts c2_second_run ≠ resolvedOpts c2_first_run := by
  decide

/-- C2 amended: resolution within one session is not idempotent for the
Unix-like and MSVC-like families: when the same `(profile, mode)` pair
is resolved twice with the same stub prober, the second resolution's
compile-flag list strictly extends the first (it has the first as a
proper prefix), because the resolver accumulates into the shared
class-level flag state.  (Only an unknown family, whose list is rebuilt
from the default `[]`, reproduces its list.) -/
theorem c2_amended (tc : ToolchainProfile) (prober : List String → Bool)
    (cov : Bool) (l : List String) (st1 st2 : BuildSt)
    (hct : tc.compiler_type ≠ CompilerType.other)
    (h1 : build_extensions tc prober cov fasttext_version (initState cov l) =
      Except.ok st1)
    (h2 : build_extensions tc prober cov fasttext_version st1 = Except.ok st2) :
    firstExtArgs st1 <+: firstExtArgs st2 ∧
    firstExtArgs st1 ≠ firstExtArgs st2 := by
  obtain ⟨d, maj, minr, ct⟩ := tc
  simp only [build_extensions, initState, ext_modules, init_c_opts] at h1
  cases d <;> cases ct <;> cases cov <;>
    by_cases p1 : prober [stdlib_flag] <;>
    by_cases p2 : prober all_flags <;>
    by_cases pv : prober ["-fvisibility=hidden"] <;>
    simp only [p1, p2, pv, if_true, if_false, Bool.false_eq_true,
      ite_true, ite_false] at h1 <;>
    first
      | exact absurd rfl hct
      | (rw [Except.ok.injEq] at h1; subst h1;
         simp only [build_extensions, p1, p2, pv, if_true, if_false,
           Bool.false_eq_true, ite_true, ite_false] at h2;
         rw [Except.ok.injEq] at h2; subst h2;
         refine ⟨?_, ?_⟩ <;>
           (simp only [firstExtArgs, List.map_cons, List.map_nil,
             List.head?_cons, Option.map_some', Option.getD_some]; decide))
      | simp at h1

/-- Witness for C2 amended: two successive release-mode Unix-family
resolutions with the all-accepting stub prober. -/
theorem c2_amended_witness :
    ∃ st1 st2,
      build_extensions tc_linux_unix all_true_prober false fasttext_version
        (initState false []) = Except.ok st1 ∧
      build_extensions tc_linux_unix all_true_prober false fasttext_version
        st1 = Except.ok st2 ∧
      (firstExtArgs st1 <+: firstExtArgs st2 ∧
        firstExtArgs st1 ≠ firstExtArgs st2) :=
  ⟨_, _, rfl, rfl, c2_amended tc_linux_unix all_true_prober false [] _ _
    (by decide) rfl rfl⟩

end FasterFastText
